import Mathlib

/-! # Formal model of the Ollama benchmark orchestration pipeline

A shallow embedding of the core of `ollama_benchmark_setup.py`: the
command executor (`run_cmd`), the model lifecycle loop inside
`run_tests_for_models` (pull / ping retries, per-test result records),
the telemetry worker (primary pynvml tick, nvidia-smi fallback row
parsing, cancellation loop) and the aggregation stage of
`generate_master_dashboard` (grouping, `first_col_like` column
resolution, telemetry attachment). External effects (processes, the
GPU, the filesystem clock) are passed in as explicit inputs. -/

/-! ## Configuration constants (`CONFIG` block of the script) -/

def PING_RETRIES : Nat := 3
def PING_RETRY_WAIT : Nat := 6
def MAX_RESPONSE_TIME : Nat := 180
def MAX_OUTPUT_CHARS : Nat := 5000
def TEST_WAIT : Nat := 15
def GPU_LOG_INTERVAL : Nat := 2

/-! ## Small Python-semantics helpers -/

/-- Python string slice `s[:n]`: the first `n` characters of `s`. -/
def pySlice (s : String) (n : Nat) : String := ⟨s.data.take n⟩

/-- Whitespace characters stripped by Python `str.strip()`. -/
def isPySpace (c : Char) : Bool :=
  c = ' ' || c = '\t' || c = '\n' || c = '\r' || c = '\x0b' || c = '\x0c'

/-- Python `s.strip()`: drop leading and trailing whitespace. -/
def pyStrip (s : String) : String :=
  ⟨((s.data.dropWhile isPySpace).reverse.dropWhile isPySpace).reverse⟩

/-- Python `s.lower()`. -/
def pyLower (s : String) : String := ⟨s.data.map Char.toLower⟩

/-- Python `s.split(sep)` for a one-character separator, on char lists. -/
def splitOnChar (sep : Char) : List Char → List (List Char)
  | [] => [[]]
  | c :: rest =>
    let r := splitOnChar sep rest
    if c = sep then [] :: r
    else
      match r with
      | [] => [[c]]
      | h :: t => (c :: h) :: t

/-- Truthiness of `out and out.strip()` for an optional string `out`
(`None` on a timed-out command): true exactly when the string is
present, non-empty, and non-empty after stripping whitespace. -/
def pyTruthyStripped : Option String → Bool
  | none => false
  | some s => s != "" && pyStrip s != ""

/-- Structural `concatMap`, used to model loops that append to a sink. -/
def concatMap (f : α → List β) : List α → List β
  | [] => []
  | a :: l => f a ++ concatMap f l

/-- Membership test of a sublist of characters: `sublistCheck n h` is
Python's `n in h` for strings (contiguous substring). -/
def sublistCheck (n : List Char) : List Char → Bool
  | [] => n.isEmpty
  | c :: rest => n.isPrefixOf (c :: rest) || sublistCheck n rest

/-- Python `needle in hay` on strings. -/
def pyInStr (needle hay : String) : Bool := sublistCheck needle.data hay.data

/-- First-occurrence-preserving duplicate removal (`pandas.unique`). -/
def uniqueFirst : List String → List String
  | [] => []
  | a :: rest => a :: (uniqueFirst rest).filter (fun b => b != a)

/-- Lexicographic comparison of char lists by code point, Python's
string ordering. -/
def charsLt : List Char → List Char → Bool
  | [], [] => false
  | [], _ :: _ => true
  | _ :: _, [] => false
  | a :: as, b :: bs =>
    if a.toNat < b.toNat then true
    else if b.toNat < a.toNat then false
    else charsLt as bs

/-- Boolean string order used to model Python `sorted` on names. -/
def strLe (a b : String) : Bool := a == b || charsLt a.data b.data

/-- Insertion into a sorted list (structural, kernel-evaluable). -/
def insertSortedBy (le : α → α → Bool) (a : α) : List α → List α
  | [] => [a]
  | b :: rest => if le a b then a :: b :: rest else b :: insertSortedBy le a rest

/-- Insertion sort (structural, kernel-evaluable), modelling `sorted`. -/
def sortBy (le : α → α → Bool) : List α → List α
  | [] => []
  | a :: rest => insertSortedBy le a (sortBy le rest)

/-- `sorted(unique(...))`, the iteration order of the dashboard loops. -/
def uniqueSorted (l : List String) : List String := sortBy strLe (uniqueFirst l)

/-- Lookup by string key in an association list (Python `dict.get`). -/
def lookupStr (l : List (String × α)) (k : String) : Option α :=
  (l.find? (fun p => p.1 == k)).map Prod.snd

/-- Python `str.replace(pat, rep)` on char lists, with an explicit fuel
equal to the input length so the definition is structural. Each step
consumes at least one character, so the fuel never runs out. -/
def replaceCharsFuel (pat rep : List Char) : Nat → List Char → List Char
  | _, [] => []
  | 0, l => l
  | fuel + 1, c :: rest =>
    if pat.isPrefixOf (c :: rest) && !pat.isEmpty then
      rep ++ replaceCharsFuel pat rep fuel (rest.drop (pat.length - 1))
    else
      c :: replaceCharsFuel pat rep fuel rest

/-- Python `s.replace(pat, rep)`. -/
def pyReplace (s pat rep : String) : String :=
  ⟨replaceCharsFuel pat.data rep.data s.data.length s.data⟩

/-- Joining char lists with a separator (`sep.join(parts)`). -/
def intercalChars (sep : List Char) : List (List Char) → List Char
  | [] => []
  | [x] => x
  | x :: xs => x ++ sep ++ intercalChars sep xs

/-- `pathlib.Path(name).stem` for the plain file names used by the
script (`benchmark_results_<ts>.csv`): the name without its final
extension; a lone leading dot is not an extension. -/
def pathStem (name : String) : String :=
  let parts := (splitOnChar '.' name.data).map (fun l => (⟨l⟩ : String))
  match parts with
  | [] => name
  | [_] => name
  | p :: rest =>
    if p == "" && rest.length == 1 then name
    else ⟨intercalChars ['.'] (parts.dropLast.map (·.data))⟩

/-! ## Command Executor (`run_cmd`, source lines 66-76) -/

/-- The observable behaviour of the spawned process: it either
completes (with captured stdout/stderr and an exit code) within the
timeout, or `subprocess.run` raises `TimeoutExpired`. -/
inductive ProcBehavior where
  | completes (stdout stderr : String) (rc : Int)
  | timesOut
deriving DecidableEq

/-- The `(stdout, stderr, rc)` triple returned by `run_cmd`. `stdout`
is `none` exactly on the timeout path (`return None, "TIMEOUT", 124`). -/
structure CmdResult where
  stdout : Option String
  stderr : String
  rc : Int
deriving DecidableEq

/-- `run_cmd` with `capture=True`: strips the captured streams and
returns the exit code; on `subprocess.TimeoutExpired` it returns the
sentinel triple instead of raising. -/
def runCmd : ProcBehavior → CmdResult
  | .completes out err rc => ⟨some (pyStrip out), pyStrip err, rc⟩
  | .timesOut => ⟨none, "TIMEOUT", 124⟩

/-! ## Model lifecycle (`run_tests_for_models`, source lines 990-1148) -/

/-- Outcome of one `subprocess.run` test invocation: either the process
finishes (any exit code — the success branch records the row regardless
of `rc`) or `TimeoutExpired` is raised at the `MAX_RESPONSE_TIME` bound. -/
inductive TestOutcome where
  | success (out err : String) (rc : Int) (duration : ℚ)
  | timeout (elapsed : ℚ)
deriving DecidableEq

/-- One row of the `benchmark_results_*.csv` sink. -/
structure ResultRecord where
  timestamp : String
  model : String
  test_case : String
  duration_s : ℚ
  output_chars : Nat
  output : String
deriving DecidableEq

/-- The row appended for one test: the success branch writes
`len(out)` and `out[:MAX_OUTPUT_CHARS]`; the `TimeoutExpired` branch
writes `0`, the sentinel `"TIMEOUT"` and the elapsed duration. -/
def makeRecord (model ts tname : String) : TestOutcome → ResultRecord
  | .success out _err _rc dur => ⟨ts, model, tname, dur, out.length, pySlice out MAX_OUTPUT_CHARS⟩
  | .timeout elapsed => ⟨ts, model, tname, elapsed, 0, "TIMEOUT"⟩

/-- The environment one model sees: exit code of each pull attempt,
stdout/exit code of each ping attempt, and per-test outcome and
wall-clock start time (keyed by test-case file name). -/
structure ModelWorld where
  pullRc : Nat → Int
  pingOut : Nat → Option String
  pingRc : Nat → Int
  testOutcome : String → TestOutcome
  testStart : String → String

/-- Observable steps of the pull/ping verification loop. `retryWait`
is the `time.sleep(PING_RETRY_WAIT)` (6 s) executed after a failed
attempt. -/
inductive LifecycleEvent where
  | pullAttempt (k : Nat) (rc : Int)
  | retryWait
  | pingAttempt (k : Nat)
deriving DecidableEq

/-- The `for attempt in range(PING_RETRIES)` loop: pull, and on pull
failure sleep and continue; on pull success ping, and break out on a
zero exit code with truthy stripped output, else sleep and continue.
Returns the final `ping_ok` flag and the event trace. -/
def pingLoopAux (w : ModelWorld) : Nat → Nat → Bool × List LifecycleEvent
  | _, 0 => (false, [])
  | k, fuel + 1 =>
    let rc := w.pullRc k
    if rc ≠ 0 then
      let r := pingLoopAux w (k + 1) fuel
      (r.1, .pullAttempt k rc :: .retryWait :: r.2)
    else if w.pingRc k = 0 ∧ pyTruthyStripped (w.pingOut k) = true then
      (true, [.pullAttempt k rc, .pingAttempt k])
    else
      let r := pingLoopAux w (k + 1) fuel
      (r.1, .pullAttempt k rc :: .pingAttempt k :: .retryWait :: r.2)

/-- The verification loop started at attempt 0 with `PING_RETRIES` fuel. -/
def pingLoop (w : ModelWorld) : Bool × List LifecycleEvent := pingLoopAux w 0 PING_RETRIES

/-- Result rows appended while processing one model: none when the
ping verification fails (`continue` to the next model); otherwise one
row per test file, in directory order (the `continue` taken when the
test directory is empty appends nothing, which coincides with mapping
over the empty list). -/
def runModelRecords (model : String) (w : ModelWorld) (tests : List String) : List ResultRecord :=
  if (pingLoop w).1 then
    tests.map (fun t => makeRecord model (w.testStart t) t (w.testOutcome t))
  else []

/-- The whole run: models processed strictly in sequence, each model's
rows appended to the single results CSV of the run. -/
def run_tests_for_models (models : List (String × ModelWorld)) (tests : List String) :
    List ResultRecord :=
  concatMap (fun mw => runModelRecords mw.1 mw.2 tests) models

/-! ## Telemetry worker, primary pynvml backend (source lines 767-872) -/

/-- The outcome of each per-device NVML query of one sampling tick.
`none` means the call raised. `util`, `mem` and `temp` correspond to
the three unguarded "basic metrics" calls; the remaining fields are
each wrapped in their own `try/except` with a zero default. The PCIe
pair and the encoder/decoder pair each share a single `try` block, so
each pair fails together. -/
structure DeviceQueries where
  util : Option (Nat × Nat)
  mem : Option (Nat × Nat)
  temp : Option Nat
  power : Option Nat
  powerLimit : Option Nat
  clockCore : Option Nat
  clockMem : Option Nat
  clockSm : Option Nat
  fan : Option Nat
  pcie : Option (Nat × Nat)
  encDec : Option (Nat × Nat)
deriving DecidableEq

/-- One row of the primary-backend telemetry CSV (the 18 `fieldnames`). -/
structure TelemetryRow where
  timestamp : String
  gpu_index : Nat
  util_gpu_pct : Nat
  util_memory_pct : Nat
  mem_used_MiB : Nat
  mem_total_MiB : Nat
  mem_free_MiB : Nat
  temp_C : Nat
  power_W : ℚ
  power_limit_W : ℚ
  clock_core_MHz : Nat
  clock_memory_MHz : Nat
  clock_sm_MHz : Nat
  fan_speed_pct : Nat
  pcie_tx_MBps : ℚ
  pcie_rx_MBps : ℚ
  encoder_util_pct : Nat
  decoder_util_pct : Nat
deriving DecidableEq

/-- Header names of the primary (pynvml) telemetry sink. -/
def primary_fieldnames : List String :=
  ["timestamp", "gpu_index", "util_gpu_pct", "util_memory_pct",
   "mem_used_MiB", "mem_total_MiB", "mem_free_MiB",
   "temp_C", "power_W", "power_limit_W",
   "clock_core_MHz", "clock_memory_MHz", "clock_sm_MHz",
   "fan_speed_pct", "pcie_tx_MBps", "pcie_rx_MBps",
   "encoder_util_pct", "decoder_util_pct"]

/-- The row written for a device whose three basic queries succeeded,
with every guarded metric defaulting to zero when its call raised
(power values are converted from mW, PCIe throughput to MBps). -/
def primaryRowOf (ts : String) (i : Nat) (u m : Nat × Nat) (t : Nat)
    (q : DeviceQueries) : TelemetryRow :=
  { timestamp := ts
    gpu_index := i
    util_gpu_pct := u.1
    util_memory_pct := u.2
    mem_used_MiB := m.1 / (1024 * 1024)
    mem_total_MiB := m.2 / (1024 * 1024)
    mem_free_MiB := (m.2 - m.1) / (1024 * 1024)
    temp_C := t
    power_W := match q.power with | some p => (p : ℚ) / 1000 | none => 0
    power_limit_W := match q.powerLimit with | some p => (p : ℚ) / 1000 | none => 0
    clock_core_MHz := q.clockCore.getD 0
    clock_memory_MHz := q.clockMem.getD 0
    clock_sm_MHz := q.clockSm.getD 0
    fan_speed_pct := q.fan.getD 0
    pcie_tx_MBps := match q.pcie with | some p => (p.1 : ℚ) / (1024 * 1024) | none => 0
    pcie_rx_MBps := match q.pcie with | some p => (p.2 : ℚ) / (1024 * 1024) | none => 0
    encoder_util_pct := (q.encDec.map Prod.fst).getD 0
    decoder_util_pct := (q.encDec.map Prod.snd).getD 0 }

/-- The row collected for device `i` during one tick: the three basic
metric calls (`nvmlDeviceGetUtilizationRates`, `...GetMemoryInfo`,
`...GetTemperature`) are not individually guarded, so if any of them
raises, no row is produced and the exception escapes to the per-tick
handler. -/
def deviceRow (ts : String) (i : Nat) (q : DeviceQueries) : Option TelemetryRow :=
  match q.util, q.mem, q.temp with
  | some u, some m, some t => some (primaryRowOf ts i u m t q)
  | _, _, _ => none

/-- The `for i in range(device_count)` body of one sampling tick: rows
are written device by device; the first device whose basic metrics
raise aborts the remainder of the tick (the `except ... pass` at the
tick level), keeping the rows already written. -/
def primaryTickAux (ts : String) (i : Nat) : List DeviceQueries → List TelemetryRow
  | [] => []
  | q :: rest =>
    match deviceRow ts i q with
    | some row => row :: primaryTickAux ts (i + 1) rest
    | none => []

/-- One full sampling tick over the enumerated devices. -/
def primaryTick (ts : String) (devices : List DeviceQueries) : List TelemetryRow :=
  primaryTickAux ts 0 devices

/-! ## Sampling loop and cancellation (source lines 789-872 / 893-958,
stopped by `stop_event.set()` at line 1175) -/

/-- The `while not stop_event.is_set():` loop. `stopAt` abstracts the
orchestrator's `stop_event.set()`: the check of iteration `k` observes
the event set exactly when `stopAt ≤ k` (the event is set once and
never cleared). An iteration that passes the check performs its whole
tick (`ticks k`, a list of complete rows) and then sleeps
`GPU_LOG_INTERVAL` seconds before the next check. -/
def samplerFrom (ticks : Nat → List TelemetryRow) (stopAt : Nat) (k : Nat) :
    List TelemetryRow :=
  if k < stopAt then ticks k ++ samplerFrom ticks stopAt (k + 1) else []
termination_by stopAt - k
decreasing_by omega

/-- The sampler thread from its start to termination. -/
def samplerRun (ticks : Nat → List TelemetryRow) (stopAt : Nat) : List TelemetryRow :=
  samplerFrom ticks stopAt 0

/-- Transparent enumeration of `n` consecutive ticks starting at `k`,
used to state which ticks the sampler executed. -/
def ticksRange (ticks : Nat → List TelemetryRow) (k : Nat) : Nat → List TelemetryRow
  | 0 => []
  | n + 1 => ticks k ++ ticksRange ticks (k + 1) n

/-! ## Telemetry worker, nvidia-smi fallback backend (source lines 877-958) -/

/-- Header names written for the nvidia-smi fallback sink
(`fallback_fieldnames` in the source). -/
def fallback_fieldnames : List String :=
  ["timestamp", "gpu_index", "utilization.gpu", "utilization.memory",
   "memory.used", "memory.total", "temperature.gpu", "power.draw",
   "clocks.current.graphics", "clocks.current.memory", "clocks.current.sm",
   "fan.speed", "pcie.link.gen.current", "pcie.link.width.current",
   "encoder.stats.sessionCount", "encoder.stats.averageFps",
   "decoder.stats.sessionCount", "decoder.stats.averageFps"]

/-- Python `line.split(',')`. -/
def pySplitComma (s : String) : List String :=
  (splitOnChar ',' s.data).map (fun l => (⟨l⟩ : String))

/-- The 18 comma-separated values appended for one nvidia-smi output
line (the `csvfile.write(f"...")` of the fallback loop): the first
value is `datetime.now().isoformat()` (`now`), and the remaining ones
are `parts[2] .. parts[18]` with the source's defaults (`str(i)` for
the index slot, `'0'` elsewhere), exactly as indexed in the code.
Blank lines and lines with fewer than 18 comma-separated fields
produce no row. -/
def fallbackRowValues (now : String) (i : Nat) (line : String) : Option (List String) :=
  if pyStrip line ≠ "" then
    let parts := pySplitComma line
    if parts.length ≥ 18 then
      let get := fun (k : Nat) (d : String) => if parts.length > k then parts.getD k d else d
      some [now, get 2 (toString i), get 3 "0", get 4 "0", get 5 "0", get 6 "0",
            get 7 "0", get 8 "0", get 9 "0", get 10 "0", get 11 "0", get 12 "0",
            get 13 "0", get 14 "0", get 15 "0", get 16 "0", get 17 "0", get 18 "0"]
    else none
  else none

/-! ## Aggregator / master dashboard (source lines 1197-1334) -/

/-- `pandas` mean with `skipna=True`: `none` models NaN. -/
def meanSkipna (vs : List (Option ℚ)) : Option ℚ :=
  let xs := vs.filterMap id
  if xs.length = 0 then none else some (xs.sum / (xs.length : ℚ))

/-- `pandas` max with `skipna=True`. -/
def maxSkipna (vs : List (Option ℚ)) : Option ℚ := (vs.filterMap id).max?

/-- `pandas` min with `skipna=True` (the `start_time` aggregate). -/
def minSkipna (vs : List (Option ℚ)) : Option ℚ := (vs.filterMap id).min?

/-- One row of a parsed results CSV (before the `run_file` tag):
`timestamp` and `duration_s` are optional because
`pd.to_datetime(..., errors='coerce')` and missing cells yield NaT/NaN. -/
structure RawResRow where
  timestamp : Option ℚ
  model : String
  test_case : String
  duration_s : Option ℚ
deriving DecidableEq

/-- A results row tagged with the name of its source file
(`df['run_file'] = f.name`). -/
structure TaggedRow where
  run_file : String
  timestamp : Option ℚ
  model : String
  test_case : String
  duration_s : Option ℚ
deriving DecidableEq

/-- `pd.concat(frames)`: all rows of all readable result files, each
tagged with its file name. -/
def tagRows (files : List (String × List RawResRow)) : List TaggedRow :=
  concatMap (fun f => f.2.map (fun r => ⟨f.1, r.timestamp, r.model, r.test_case, r.duration_s⟩)) files

/-- One `groupby(['run_file', 'test_case', 'model'])` group. -/
def aggGroup (all_res : List TaggedRow) (rf tc m : String) : List TaggedRow :=
  all_res.filter (fun r => r.run_file == rf && r.test_case == tc && r.model == m)

/-- The group's `duration_s=('duration_s', 'mean')` aggregate. -/
def aggMeanDuration (g : List TaggedRow) : Option ℚ := meanSkipna (g.map (·.duration_s))

/-- The group's `count=('timestamp', 'count')` aggregate: pandas
`count` counts the non-null timestamps of the group. -/
def aggCount (g : List TaggedRow) : Nat := (g.map (·.timestamp)).countP (·.isSome)

/-- The group's `start_time=('timestamp', 'min')` aggregate. -/
def aggStart (g : List TaggedRow) : Option ℚ := minSkipna (g.map (·.timestamp))

/-- A telemetry CSV as read back by the dashboard: column names plus
rows of numeric cells after `pd.to_numeric(..., errors='coerce')`
(`none` models NaN). -/
structure TelSink where
  cols : List String
  data : List (List (Option ℚ))
deriving DecidableEq

/-- The values of one named column of a telemetry sink. -/
def colValues (s : TelSink) (c : String) : List (Option ℚ) :=
  match s.cols.findIdx? (fun x => x == c) with
  | some idx => s.data.map (fun row => row.getD idx none)
  | none => []

/-- `first_col_like(df, candidates)` (source lines 1301-1306): try the
candidates in priority order and, for each, the sink's columns in
order, returning the first column whose lowercased name contains the
candidate as a substring. -/
def first_col_like (cols : List String) : List String → Option String
  | [] => none
  | cand :: rest =>
    match cols.find? (fun col => pyInStr cand (pyLower col)) with
    | some col => some col
    | none => first_col_like cols rest

/-- The candidate list used to resolve `avg_util`. -/
def utilCandidates : List String := ["util", "utilization", "util_gpu", "utilization.gpu"]

/-- The candidate list used to resolve `max_temp`. -/
def tempCandidates : List String := ["temp", "temperature"]

/-- The candidate list used to resolve `avg_power`. -/
def powerCandidates : List String := ["power", "power.draw", "power_w"]

/-- The `telemetry_agg` dict: an outer `none` means the key was never
set (no column resolved); an inner `none` models a NaN aggregate. -/
structure TelAgg where
  avg_util : Option (Option ℚ)
  max_temp : Option (Option ℚ)
  avg_power : Option (Option ℚ)
deriving DecidableEq

/-- Lines 1308-1317: resolve the three key columns with
`first_col_like` and fill `telemetry_agg` with mean/max/mean of the
resolved columns. -/
def buildTelAgg (s : TelSink) : TelAgg :=
  let util_col := first_col_like s.cols utilCandidates
  let temp_col := first_col_like s.cols tempCandidates
  let power_col := first_col_like s.cols powerCandidates
  { avg_util := util_col.map (fun c => meanSkipna (colValues s c))
    max_temp := temp_col.map (fun c => maxSkipna (colValues s c))
    avg_power := power_col.map (fun c => meanSkipna (colValues s c)) }

/-- One `models_list` entry of the payload. `telemetry` is
`none` while the dict key is absent; `some v` once the copy loop sets
it (`v = none` models JSON null). -/
structure ModelEntry where
  model : String
  duration_s : Option ℚ
  start_time : Option ℚ
  count : Nat
  telemetry : Option (Option TelAgg)
deriving DecidableEq

/-- The entry built from one aggregation group (lines 1268-1274); the
`telemetry` key is not set at this point. -/
def mkEntry (m : String) (g : List TaggedRow) : ModelEntry :=
  { model := m, duration_s := aggMeanDuration g, start_time := aggStart g,
    count := aggCount g, telemetry := none }

/-- The nested `payload['runs']` structure (lines 1262-1276): runs,
test cases and models each iterated in sorted order of their distinct
values. -/
def buildRuns (all_res : List TaggedRow) : List (String × List (String × List ModelEntry)) :=
  (uniqueSorted (all_res.map (·.run_file))).map (fun rf =>
    let run_rows := all_res.filter (fun r => r.run_file == rf)
    (rf, (uniqueSorted (run_rows.map (·.test_case))).map (fun tc =>
      let r := run_rows.filter (fun x => x.test_case == tc)
      (tc, (uniqueSorted (r.map (·.model))).map (fun m =>
        mkEntry m (r.filter (fun x => x.model == m)))))))

/-- The serialized payload: the nested `runs` map and the flat
`telemetry` map. -/
structure Payload where
  runs : List (String × List (String × List ModelEntry))
  telemetry : List (String × Option TelAgg)
deriving DecidableEq

/-- `f.stem.replace('benchmark_results_', '')`: the run-identity
fragment shared by a results file and its telemetry file. -/
def tsFragOf (name : String) : String := pyReplace (pathStem name) "benchmark_results_" ""

/-- The telemetry directory as seen by the dashboard: file name to
sink; a `none` sink is a file that exists but fails to parse. -/
def lookupTel (teldir : List (String × Option TelSink)) (frag : String) :
    Option (Option TelSink) :=
  lookupStr teldir ("gpu_usage_" ++ frag ++ ".csv")

/-- `payload['telemetry']` (lines 1279-1323): for every discovered
results file, the run-level aggregates of the matching telemetry file,
or `none` when the file is missing or unreadable. -/
def buildTelemetryMap (files : List (String × List RawResRow))
    (teldir : List (String × Option TelSink)) : List (String × Option TelAgg) :=
  files.map (fun f =>
    match lookupTel teldir (tsFragOf f.1) with
    | some (some sink) => (f.1, some (buildTelAgg sink))
    | some none => (f.1, none)
    | none => (f.1, none))

/-- Python truthiness of `run_tel` (`if run_tel:`): a missing entry
and an empty dict are both falsy. -/
def telTruthy : Option TelAgg → Bool
  | none => false
  | some a => a.avg_util.isSome || a.max_temp.isSome || a.avg_power.isSome

/-- The copy loop at lines 1326-1334 together with the HTML block and
`return` at lines 1336-1433, which are indented inside that loop: the
first run's entries receive their `telemetry` key (the run aggregate
when truthy, else null) and the function returns before any later run
is processed, so entries of every other run keep the key absent. -/
def attachTelemetry (p : Payload) : Payload :=
  match p.runs with
  | [] => p
  | (rf, tests) :: rest =>
    let run_tel : Option TelAgg := (lookupStr p.telemetry rf).join
    let tel : Option (Option TelAgg) := if telTruthy run_tel then some run_tel else some none
    { p with runs :=
        (rf, tests.map (fun tcms => (tcms.1, tcms.2.map (fun m => { m with telemetry := tel }))))
        :: rest }

/-- `generate_master_dashboard` restricted to its payload computation:
discover the result files in sorted name order, concatenate and tag
their rows, aggregate, build the nested structure and the telemetry
map, then run the (early-returning) telemetry copy loop. -/
def generate_master_dashboard (files : List (String × List RawResRow))
    (teldir : List (String × Option TelSink)) : Payload :=
  let sfiles := sortBy (fun a b => strLe a.1 b.1) files
  let all_res := tagRows sfiles
  attachTelemetry { runs := buildRuns all_res, telemetry := buildTelemetryMap sfiles teldir }

/-! ## Concrete instances used by witnesses and counterexamples -/

/-- A model whose pull command always fails (exit status 1). -/
def c5World : ModelWorld :=
  { pullRc := fun _ => 1, pingOut := fun _ => none, pingRc := fun _ => 0,
    testOutcome := fun _ => .timeout 180, testStart := fun _ => "" }

/-- A model that pulls and pings at the first attempt; `t1` succeeds in
2 s with output "OK", every other test times out at the bound. -/
def c1World : ModelWorld :=
  { pullRc := fun _ => 0, pingOut := fun _ => some "pong", pingRc := fun _ => 0,
    testOutcome := fun t => if t = "t1" then .success "OK" "" 0 2 else .timeout 180,
    testStart := fun _ => "2025-01-01T00:00:00" }

/-- A device on which only the temperature query raises. -/
def c3Device : DeviceQueries :=
  { util := some (50, 40), mem := some (1073741824, 2147483648), temp := none,
    power := some 100000, powerLimit := some 200000, clockCore := some 1500,
    clockMem := some 7000, clockSm := some 1400, fan := some 40,
    pcie := some (1024, 2048), encDec := some (5, 6) }

/-- A device whose basic queries succeed and whose guarded optional
queries all raise. -/
def c3GoodDevice : DeviceQueries :=
  { util := some (10, 5), mem := some (2097152, 4194304), temp := some 60,
    power := none, powerLimit := none, clockCore := none,
    clockMem := none, clockSm := none, fan := none,
    pcie := none, encDec := none }

/-- A well-formed 18-field `nvidia-smi --query-gpu=... --format=csv`
output line: timestamp, index 7, utilization.gpu 45, utilization.memory
30, then the remaining 14 fields. -/
def smiLine : String :=
  "2025/01/01 00:00:00.000, 7, 45, 30, 1000, 8000, 60, 120, 1500, 7000, 1400, 40, 4, 16, 1, 2, 3, 4"

/-- Results file of the first discovered run. -/
def c6File1 : String × List RawResRow :=
  ("benchmark_results_A.csv", [⟨some 1, "m1", "t1", some 2⟩])

/-- Results file of the second discovered run. -/
def c6File2 : String × List RawResRow :=
  ("benchmark_results_B.csv", [⟨some 1, "m1", "t1", some 3⟩])

/-- Telemetry directory holding a parseable sink for both runs, each
with a utilization column. -/
def c6TelDir : List (String × Option TelSink) :=
  [("gpu_usage_A.csv", some ⟨["timestamp", "util_gpu_pct"], [[none, some 50]]⟩),
   ("gpu_usage_B.csv", some ⟨["timestamp", "util_gpu_pct"], [[none, some 70]]⟩)]

/-- The dashboard payload for the two runs above. -/
def c6Payload : Payload := generate_master_dashboard [c6File2, c6File1] c6TelDir

/-- Placeholder entry for list indexing. -/
def c6DefaultEntry : ModelEntry :=
  { model := "", duration_s := none, start_time := none, count := 0, telemetry := none }

/-- The single model entry of run `i` in the payload above. -/
def c6EntryAt (i : Nat) : ModelEntry :=
  ((c6Payload.runs.getD i ("", [])).2.getD 0 ("", [])).2.getD 0 c6DefaultEntry

/-- A single result row used to witness the aggregation claims. -/
def c8Row : TaggedRow := ⟨"benchmark_results_X.csv", some 5, "m1", "t1", some 7⟩

/-! ## Theorems -/

/-- The model never changes across the branches of `makeRecord`. -/
theorem makeRecord_model (model ts tname : String) (o : TestOutcome) :
    (makeRecord model ts tname o).model = model := by
  cases o <;> rfl

/-- The test-case name never changes across the branches of `makeRecord`. -/
theorem makeRecord_test_case (model ts tname : String) (o : TestOutcome) :
    (makeRecord model ts tname o).test_case = tname := by
  cases o <;> rfl

/-- Claim C4: for every command executed with a timeout, a command that
does not complete returns (without raising) the sentinel triple
`(None, "TIMEOUT", 124)`, and this outcome differs from the outcome of
every process that completes with a non-zero exit status, so callers
can branch on timeout versus rejection. -/
theorem run_cmd_timeout_distinct (out err : String) (rc : Int) (h : rc ≠ 0) :
    runCmd .timesOut = ⟨none, "TIMEOUT", 124⟩ ∧
    runCmd (.completes out err rc) ≠ runCmd .timesOut := by
  refine ⟨rfl, fun hEq => ?_⟩
  have hstd : (runCmd (.completes out err rc)).stdout = (runCmd .timesOut).stdout := by
    rw [hEq]
  simp [runCmd] at hstd

/-- Witness for C4 at a concrete rejected command. -/
theorem run_cmd_timeout_distinct_witness :
    (1 : Int) ≠ 0 ∧
    (runCmd .timesOut = ⟨none, "TIMEOUT", 124⟩ ∧
      runCmd (.completes "denied" "error" 1) ≠ runCmd .timesOut) :=
  ⟨by decide, run_cmd_timeout_distinct "denied" "error" 1 (by decide)⟩

/-- Claim C10: for every successfully completed (non-timeout) test
invocation, the persisted record's output equals the model output
clipped to at most `MAX_OUTPUT_CHARS = 5000` characters, while
`output_chars` holds the length of the full unclipped output (the
stored text has length `min 5000 (full length)`, so `output_chars` can
exceed it). -/
theorem success_record_clipping (model ts tname out err : String) (rc : Int) (dur : ℚ) :
    MAX_OUTPUT_CHARS = 5000 ∧
    (makeRecord model ts tname (.success out err rc dur)).output = pySlice out MAX_OUTPUT_CHARS ∧
    (makeRecord model ts tname (.success out err rc dur)).output_chars = out.length ∧
    (makeRecord model ts tname (.success out err rc dur)).duration_s = dur ∧
    (pySlice out MAX_OUTPUT_CHARS).length = min MAX_OUTPUT_CHARS out.length := by
  refine ⟨rfl, rfl, rfl, rfl, ?_⟩
  show (out.data.take MAX_OUTPUT_CHARS).length = min MAX_OUTPUT_CHARS out.length
  exact List.length_take MAX_OUTPUT_CHARS out.data

/-- Claim C2 (evaluation of the code at the failing input): on a
well-formed 18-field nvidia-smi line whose device-index field is `7`
and whose GPU-utilization field is `45`, the fallback loop writes the
utilization value in the slot of the `gpu_index` header column and
shifts every later field one column left, defaulting the final
`decoder.stats.averageFps` slot to `0`: the written values do not
align with the fallback header. -/
theorem fallback_row_misaligned :
    (pySplitComma smiLine).length = 18 ∧
    (pySplitComma smiLine).getD 1 "" = " 7" ∧
    (pySplitComma smiLine).getD 2 "" = " 45" ∧
    fallback_fieldnames.getD 1 "" = "gpu_index" ∧
    fallback_fieldnames.getD 17 "" = "decoder.stats.averageFps" ∧
    fallbackRowValues "2025-01-01T00:00:01" 7 smiLine =
      some ["2025-01-01T00:00:01", " 45", " 30", " 1000", " 8000", " 60", " 120",
            " 1500", " 7000", " 1400", " 40", " 4", " 16", " 1", " 2", " 3", " 4", "0"] ∧
    ((fallbackRowValues "2025-01-01T00:00:01" 7 smiLine).getD []).getD 1 "" = " 45" ∧
    (" 45" : String) ≠ " 7" := by
  decide

/-- Claim C3 (counterexample): a device on which exactly one metric
query (the temperature) raises, while every other query succeeds,
produces no telemetry row at all — the failure aborts the row instead
of degrading the one field to zero. -/
theorem primary_tick_metric_failure_aborts_row :
    c3Device.temp = none ∧
    c3Device.util.isSome = true ∧ c3Device.mem.isSome = true ∧
    c3Device.power.isSome = true ∧ c3Device.powerLimit.isSome = true ∧
    c3Device.clockCore.isSome = true ∧ c3Device.clockMem.isSome = true ∧
    c3Device.clockSm.isSome = true ∧ c3Device.fan.isSome = true ∧
    c3Device.pcie.isSome = true ∧ c3Device.encDec.isSome = true ∧
    primaryTick "t0" [c3Device] = [] := by
  decide

/-- Claim C3 (amended): during a sampling tick, for a device whose
three unguarded basic queries (utilization, memory, temperature)
succeed, the failure of any guarded optional metric query (power,
power limit, clocks, fan speed, PCIe throughput, encoder/decoder
utilization) yields a zero value for that field while the rest of the
row is still collected and written; failure of a basic query instead
aborts the device's row (and the rest of the tick). -/
theorem primary_row_optional_metric_zero (ts : String) (i : Nat) (q : DeviceQueries)
    (u m : Nat × Nat) (t : Nat)
    (hu : q.util = some u) (hm : q.mem = some m) (ht : q.temp = some t) :
    deviceRow ts i q = some (primaryRowOf ts i u m t q) ∧
    (∀ rest, primaryTickAux ts i (q :: rest) =
      primaryRowOf ts i u m t q :: primaryTickAux ts (i + 1) rest) ∧
    (primaryRowOf ts i u m t q).util_gpu_pct = u.1 ∧
    (primaryRowOf ts i u m t q).temp_C = t ∧
    (q.power = none → (primaryRowOf ts i u m t q).power_W = 0) ∧
    (q.powerLimit = none → (primaryRowOf ts i u m t q).power_limit_W = 0) ∧
    (q.clockCore = none → (primaryRowOf ts i u m t q).clock_core_MHz = 0) ∧
    (q.clockMem = none → (primaryRowOf ts i u m t q).clock_memory_MHz = 0) ∧
    (q.clockSm = none → (primaryRowOf ts i u m t q).clock_sm_MHz = 0) ∧
    (q.fan = none → (primaryRowOf ts i u m t q).fan_speed_pct = 0) ∧
    (q.pcie = none → (primaryRowOf ts i u m t q).pcie_tx_MBps = 0 ∧
      (primaryRowOf ts i u m t q).pcie_rx_MBps = 0) ∧
    (q.encDec = none → (primaryRowOf ts i u m t q).encoder_util_pct = 0 ∧
      (primaryRowOf ts i u m t q).decoder_util_pct = 0) := by
  have hrow : deviceRow ts i q = some (primaryRowOf ts i u m t q) := by
    simp [deviceRow, hu, hm, ht]
  refine ⟨hrow, ?_, rfl, rfl, ?_, ?_, ?_, ?_, ?_, ?_, ?_, ?_⟩
  · intro rest
    simp [primaryTickAux, hrow]
  · intro h; simp [primaryRowOf, h]
  · intro h; simp [primaryRowOf, h]
  · intro h; simp [primaryRowOf, h]
  · intro h; simp [primaryRowOf, h]
  · intro h; simp [primaryRowOf, h]
  · intro h; simp [primaryRowOf, h]
  · intro h; exact ⟨by simp [primaryRowOf, h], by simp [primaryRowOf, h]⟩
  · intro h; exact ⟨by simp [primaryRowOf, h], by simp [primaryRowOf, h]⟩

/-- Witness for the amended C3 on a device whose optional queries all
raise. -/
theorem primary_row_optional_metric_zero_witness :
    c3GoodDevice.util = some (10, 5) ∧
    deviceRow "t0" 0 c3GoodDevice =
      some (primaryRowOf "t0" 0 (10, 5) (2097152, 4194304) 60 c3GoodDevice) ∧
    (c3GoodDevice.power = none →
      (primaryRowOf "t0" 0 (10, 5) (2097152, 4194304) 60 c3GoodDevice).power_W = 0) :=
  ⟨rfl,
   (primary_row_optional_metric_zero "t0" 0 c3GoodDevice (10, 5) (2097152, 4194304) 60
      rfl rfl rfl).1,
   (primary_row_optional_metric_zero "t0" 0 c3GoodDevice (10, 5) (2097152, 4194304) 60
      rfl rfl rfl).2.2.2.2.1⟩

/-- Claim C5: for a model whose pull always returns a non-zero status,
the lifecycle loop makes exactly `PING_RETRIES = 3` pull attempts with
the fixed `PING_RETRY_WAIT = 6` second wait after each failed attempt,
never issues a ping, writes no result record for the model, and the
run continues with the remaining models (no exception). -/
theorem pull_failure_bounded_attempts (m : String) (w : ModelWorld)
    (rest : List (String × ModelWorld)) (tests : List String)
    (h : ∀ k, w.pullRc k ≠ 0) :
    PING_RETRIES = 3 ∧ PING_RETRY_WAIT = 6 ∧
    pingLoop w = (false,
      [.pullAttempt 0 (w.pullRc 0), .retryWait,
       .pullAttempt 1 (w.pullRc 1), .retryWait,
       .pullAttempt 2 (w.pullRc 2), .retryWait]) ∧
    runModelRecords m w tests = [] ∧
    run_tests_for_models ((m, w) :: rest) tests = run_tests_for_models rest tests := by
  have hloop : pingLoop w = (false,
      [.pullAttempt 0 (w.pullRc 0), .retryWait,
       .pullAttempt 1 (w.pullRc 1), .retryWait,
       .pullAttempt 2 (w.pullRc 2), .retryWait]) := by
    simp [pingLoop, PING_RETRIES, pingLoopAux, h 0, h 1, h 2]
  have hrec : runModelRecords m w tests = [] := by
    simp [runModelRecords, hloop]
  refine ⟨rfl, rfl, hloop, hrec, ?_⟩
  simp [run_tests_for_models, concatMap, hrec]

/-- Witness for C5 on a model whose pull always exits with status 1. -/
theorem pull_failure_bounded_attempts_witness :
    (∀ k, c5World.pullRc k ≠ 0) ∧
    pingLoop c5World = (false,
      [.pullAttempt 0 1, .retryWait, .pullAttempt 1 1, .retryWait,
       .pullAttempt 2 1, .retryWait]) ∧
    run_tests_for_models [("stubborn", c5World)] ["t1"] = run_tests_for_models [] ["t1"] := by
  have h : ∀ k, c5World.pullRc k ≠ 0 := fun _ => one_ne_zero
  have := pull_failure_bounded_attempts "stubborn" c5World [] ["t1"] h
  exact ⟨h, this.2.2.1, this.2.2.2.2⟩

/-- The sampling loop runs exactly the ticks whose stop-event check
came before cancellation. -/
theorem samplerFrom_closed (ticks : Nat → List TelemetryRow) (stopAt : Nat) :
    ∀ n k, stopAt - k = n → samplerFrom ticks stopAt k = ticksRange ticks k n := by
  intro n
  induction n with
  | zero =>
    intro k hk
    rw [samplerFrom, if_neg (by omega)]
    rfl
  | succ n ih =>
    intro k hk
    rw [samplerFrom, if_pos (by omega), ticksRange, ih (k + 1) (by omega)]

/-- Claim C7: once the cancellation event is set (observed from check
`stopAt` onwards), the sampler starts no new sampling tick: the sink
holds exactly the complete rows of ticks `0 .. stopAt - 1`, and from
any check at or after the cancellation point the loop produces nothing
further — so sampling stops within the one in-flight tick plus the
`GPU_LOG_INTERVAL = 2` second sleep, and the sink ends at a row
boundary (it is a concatenation of whole rows of executed ticks). -/
theorem sampler_stops_after_cancellation (ticks : Nat → List TelemetryRow) (stopAt : Nat) :
    GPU_LOG_INTERVAL = 2 ∧
    samplerRun ticks stopAt = ticksRange ticks 0 stopAt ∧
    (∀ k, stopAt ≤ k → samplerFrom ticks stopAt k = []) := by
  refine ⟨rfl, ?_, ?_⟩
  · have := samplerFrom_closed ticks stopAt stopAt 0 (by omega)
    simpa [samplerRun] using this
  · intro k hk
    rw [samplerFrom, if_neg (by omega)]

/-- Witness for C7: a sampler cancelled after two checks runs exactly
ticks 0 and 1 and produces nothing from the third check on. -/
theorem sampler_stops_after_cancellation_witness :
    samplerRun (fun _ => []) 2 = ticksRange (fun _ => []) 0 2 ∧
    samplerFrom (fun _ => []) 2 5 = [] :=
  ⟨(sampler_stops_after_cancellation (fun _ => []) 2).2.1,
   (sampler_stops_after_cancellation (fun _ => []) 2).2.2 5 (by decide)⟩


/-- If some column matches the head candidate, `first_col_like`
resolves (to the first matching column in sink order). -/
theorem first_col_like_isSome_of_mem (cols : List String) (cand : String) (rest : List String)
    (col : String) (hmem : col ∈ cols) (hmatch : pyInStr cand (pyLower col) = true) :
    (first_col_like cols (cand :: rest)).isSome = true := by
  have hfind : (cols.find? (fun c => pyInStr cand (pyLower c))).isSome = true :=
    List.find?_isSome.mpr ⟨col, hmem, hmatch⟩
  rcases Option.isSome_iff_exists.mp hfind with ⟨c, hc⟩
  simp [first_col_like, hc]

/-- Claim C9: `first_col_like` tries candidates in priority order and
columns in sink order, returning the first column whose lowercased
name contains the candidate; consequently a sink with a utilization
column named `Utilization.GPU` or `util_gpu_pct` resolves `avg_util`,
a column containing `temp` resolves `max_temp` and one containing
`power` resolves `avg_power`, regardless of letter case — and on the
two backends' actual headers the resolved columns are exactly the
utilization/temperature/power columns. -/
theorem first_col_like_resolution :
    (∀ cols cand rest, (cols.find? (fun col => pyInStr cand (pyLower col))) = none →
      first_col_like cols (cand :: rest) = first_col_like cols rest) ∧
    (∀ cols cand rest col, (cols.find? (fun col => pyInStr cand (pyLower col))) = some col →
      first_col_like cols (cand :: rest) = some col) ∧
    (∀ cols cands col, first_col_like cols cands = some col →
      col ∈ cols ∧ ∃ cand ∈ cands, pyInStr cand (pyLower col) = true) ∧
    (∀ s : TelSink, "Utilization.GPU" ∈ s.cols → (buildTelAgg s).avg_util.isSome = true) ∧
    (∀ s : TelSink, "util_gpu_pct" ∈ s.cols → (buildTelAgg s).avg_util.isSome = true) ∧
    (∀ s : TelSink, ∀ c ∈ s.cols, pyInStr "temp" (pyLower c) = true →
      (buildTelAgg s).max_temp.isSome = true) ∧
    (∀ s : TelSink, ∀ c ∈ s.cols, pyInStr "power" (pyLower c) = true →
      (buildTelAgg s).avg_power.isSome = true) ∧
    first_col_like primary_fieldnames utilCandidates = some "util_gpu_pct" ∧
    first_col_like fallback_fieldnames utilCandidates = some "utilization.gpu" ∧
    first_col_like primary_fieldnames tempCandidates = some "temp_C" ∧
    first_col_like fallback_fieldnames tempCandidates = some "temperature.gpu" ∧
    first_col_like primary_fieldnames powerCandidates = some "power_W" ∧
    first_col_like fallback_fieldnames powerCandidates = some "power.draw" := by
  refine ⟨?_, ?_, ?_, ?_, ?_, ?_, ?_, by decide, by decide, by decide, by decide,
    by decide, by decide⟩
  · intro cols cand rest hnone
    simp [first_col_like, hnone]
  · intro cols cand rest col hsome
    simp [first_col_like, hsome]
  · intro cols cands
    induction cands with
    | nil => intro col h; simp [first_col_like] at h
    | cons cand rest ih =>
      intro col h
      rw [first_col_like] at h
      cases hfind : cols.find? (fun c => pyInStr cand (pyLower c)) with
      | some c =>
        rw [hfind] at h
        cases h
        have hp := List.find?_some hfind
        exact ⟨List.mem_of_find?_eq_some hfind, cand, List.mem_cons_self cand rest, hp⟩
      | none =>
        rw [hfind] at h
        rcases ih col h with ⟨hmem, cand2, hc2, hp2⟩
        exact ⟨hmem, cand2, List.mem_cons_of_mem cand hc2, hp2⟩
  · intro s hmem
    have h := first_col_like_isSome_of_mem s.cols "util"
      ["utilization", "util_gpu", "utilization.gpu"] "Utilization.GPU" hmem (by decide)
    rcases Option.isSome_iff_exists.mp h with ⟨c, hc⟩
    simp [buildTelAgg, utilCandidates, hc]
  · intro s hmem
    have h := first_col_like_isSome_of_mem s.cols "util"
      ["utilization", "util_gpu", "utilization.gpu"] "util_gpu_pct" hmem (by decide)
    rcases Option.isSome_iff_exists.mp h with ⟨c, hc⟩
    simp [buildTelAgg, utilCandidates, hc]
  · intro s c hmem hmatch
    have h := first_col_like_isSome_of_mem s.cols "temp" ["temperature"] c hmem hmatch
    rcases Option.isSome_iff_exists.mp h with ⟨c2, hc2⟩
    simp [buildTelAgg, tempCandidates, hc2]
  · intro s c hmem hmatch
    have h := first_col_like_isSome_of_mem s.cols "power" ["power.draw", "power_w"] c hmem hmatch
    rcases Option.isSome_iff_exists.mp h with ⟨c2, hc2⟩
    simp [buildTelAgg, powerCandidates, hc2]

/-- Witness for C9 on small sinks with differently-cased utilization
columns, a temperature column and a power column. -/
theorem first_col_like_resolution_witness :
    (buildTelAgg ⟨["Utilization.GPU"], []⟩).avg_util.isSome = true ∧
    (buildTelAgg ⟨["timestamp", "util_gpu_pct"], []⟩).avg_util.isSome = true ∧
    (buildTelAgg ⟨["Temp_C"], []⟩).max_temp.isSome = true ∧
    (buildTelAgg ⟨["power.draw"], []⟩).avg_power.isSome = true :=
  ⟨first_col_like_resolution.2.2.2.1 ⟨["Utilization.GPU"], []⟩ (by decide),
   first_col_like_resolution.2.2.2.2.1 ⟨["timestamp", "util_gpu_pct"], []⟩ (by decide),
   first_col_like_resolution.2.2.2.2.2.1 ⟨["Temp_C"], []⟩ "Temp_C" (by decide) (by decide),
   first_col_like_resolution.2.2.2.2.2.2.1 ⟨["power.draw"], []⟩ "power.draw"
     (by decide) (by decide)⟩

/-- `filterMap` drops nothing when every image is `some`. -/
theorem length_filterMap_of_isSome {α β : Type} (f : α → Option β) :
    ∀ l : List α, (∀ x ∈ l, (f x).isSome = true) → (l.filterMap f).length = l.length := by
  intro l
  induction l with
  | nil => intro _; rfl
  | cons a rest ih =>
    intro h
    rcases Option.isSome_iff_exists.mp (h a (List.mem_cons_self a rest)) with ⟨b, hb⟩
    simp [List.filterMap_cons, hb, ih (fun x hx => h x (List.mem_cons_of_mem a hx))]

/-- Claim C8: for every (run file, test case, model) key whose group
rows carry a duration and a timestamp (as every Result Record written
by the run does), the aggregate duration is the arithmetic mean of the
group's duration values and the aggregate count is the number of rows;
for a singleton group the mean equals that record's duration and the
count is 1. -/
theorem agg_group_mean_count (all_res : List TaggedRow) (rf tc m : String)
    (hdur : ∀ r ∈ aggGroup all_res rf tc m, (r.duration_s).isSome = true)
    (hts : ∀ r ∈ aggGroup all_res rf tc m, (r.timestamp).isSome = true) :
    (aggGroup all_res rf tc m ≠ [] →
      aggMeanDuration (aggGroup all_res rf tc m) =
        some (((aggGroup all_res rf tc m).filterMap (·.duration_s)).sum /
          ((aggGroup all_res rf tc m).length : ℚ))) ∧
    aggCount (aggGroup all_res rf tc m) = (aggGroup all_res rf tc m).length ∧
    (∀ r d, aggGroup all_res rf tc m = [r] → r.duration_s = some d →
      aggMeanDuration (aggGroup all_res rf tc m) = some d ∧
      aggCount (aggGroup all_res rf tc m) = 1) := by
  refine ⟨?_, ?_, ?_⟩
  · intro hne
    have hfm : ((aggGroup all_res rf tc m).map (·.duration_s)).filterMap id =
        (aggGroup all_res rf tc m).filterMap (·.duration_s) := by
      rw [List.filterMap_map]
      rfl
    have hlen : ((aggGroup all_res rf tc m).filterMap (·.duration_s)).length =
        (aggGroup all_res rf tc m).length :=
      length_filterMap_of_isSome _ _ hdur
    have hlz : ((aggGroup all_res rf tc m).filterMap (·.duration_s)).length ≠ 0 := by
      rw [hlen]
      exact fun h0 => hne (List.length_eq_zero.mp h0)
    rw [aggMeanDuration, meanSkipna]
    simp only [hfm]
    rw [if_neg hlz, hlen]
  · rw [aggCount]
    rw [List.countP_eq_length.mpr ?_, List.length_map]
    intro o ho
    rcases List.mem_map.mp ho with ⟨r, hr, rfl⟩
    exact hts r hr
  · intro r d hg hd
    constructor
    · rw [hg]
      simp [aggMeanDuration, meanSkipna, hd]
    · have hrt : (r.timestamp).isSome = true :=
        hts r (by rw [hg]; exact List.mem_cons_self r [])
      rw [hg]
      simp [aggCount, hrt]

/-- Witness for C8 on a single concrete record. -/
theorem agg_group_mean_count_witness :
    aggGroup [c8Row] "benchmark_results_X.csv" "t1" "m1" = [c8Row] ∧
    aggMeanDuration (aggGroup [c8Row] "benchmark_results_X.csv" "t1" "m1") = some 7 ∧
    aggCount (aggGroup [c8Row] "benchmark_results_X.csv" "t1" "m1") = 1 := by
  have hg : aggGroup [c8Row] "benchmark_results_X.csv" "t1" "m1" = [c8Row] := rfl
  have h := (agg_group_mean_count [c8Row] "benchmark_results_X.csv" "t1" "m1"
    (by intro r hr; rw [hg] at hr; simp at hr; rw [hr]; rfl)
    (by intro r hr; rw [hg] at hr; simp at hr; rw [hr]; rfl)).2.2 c8Row 7 hg rfl
  exact ⟨hg, h.1, h.2⟩

/-- Every row appended while processing one model carries that model's
identifier. -/
theorem mem_runModelRecords_model (model : String) (w : ModelWorld) (tests : List String) :
    ∀ r ∈ runModelRecords model w tests, r.model = model := by
  intro r hr
  rw [runModelRecords] at hr
  split at hr
  · rcases List.mem_map.mp hr with ⟨x, _, rfl⟩
    exact makeRecord_model model (w.testStart x) x (w.testOutcome x)
  · cases hr

/-- Every row of a run carries the identifier of one of its models. -/
theorem records_model_mem (models : List (String × ModelWorld)) (tests : List String) :
    ∀ r ∈ run_tests_for_models models tests, r.model ∈ models.map Prod.fst := by
  induction models with
  | nil => intro r hr; cases hr
  | cons mw rest ih =>
    intro r hr
    rw [run_tests_for_models, concatMap] at hr
    rcases List.mem_append.mp hr with h | h
    · exact List.mem_cons.mpr (Or.inl (mem_runModelRecords_model mw.1 mw.2 tests r h))
    · exact List.mem_cons_of_mem _ (ih r h)

/-- A run over models not containing `m` yields no row for `m`. -/
theorem run_filter_nil (models : List (String × ModelWorld)) (tests : List String)
    (m t : String) (hm : m ∉ models.map Prod.fst) :
    (run_tests_for_models models tests).filter
      (fun r => r.model == m && r.test_case == t) = [] := by
  rw [List.filter_eq_nil_iff]
  intro r hr
  have hmem := records_model_mem models tests r hr
  have hne : r.model ≠ m := fun he => hm (he ▸ hmem)
  simp [hne]

/-- Filtering the mapped test list for one test name keeps exactly the
record of that test, when test names are distinct. -/
theorem filter_map_single (m t : String) (f : String → ResultRecord)
    (hmod : ∀ x, (f x).model = m) (hname : ∀ x, (f x).test_case = x) :
    ∀ tests : List String, tests.Nodup → t ∈ tests →
      (tests.map f).filter (fun r => r.model == m && r.test_case == t) = [f t] := by
  intro tests
  induction tests with
  | nil => intro _ ht; cases ht
  | cons a rest ih =>
    intro hnd ht
    have hnd2 := List.nodup_cons.mp hnd
    rcases List.mem_cons.mp ht with rfl | hmem
    · have hpa : ((f t).model == m && (f t).test_case == t) = true := by
        rw [hmod, hname]
        simp
      simp only [List.map_cons, List.filter_cons, hpa, if_true]
      have hrest : (rest.map f).filter (fun r => r.model == m && r.test_case == t) = [] := by
        rw [List.filter_eq_nil_iff]
        intro r hr
        rcases List.mem_map.mp hr with ⟨x, hx, rfl⟩
        have hxt : x ≠ t := fun hxe => hnd2.1 (hxe ▸ hx)
        simp [hname, hxt]
      rw [hrest]
    · have hat : a ≠ t := fun hae => hnd2.1 (hae ▸ hmem)
      have hpa : ((f a).model == m && (f a).test_case == t) = false := by
        simp [hname, hat]
      simp only [List.map_cons, List.filter_cons, hpa, if_false]
      exact ih hnd2.2 hmem

/-- Unfolding the run over its first model. -/
theorem run_tests_cons (mw : String × ModelWorld) (rest : List (String × ModelWorld))
    (tests : List String) :
    run_tests_for_models (mw :: rest) tests =
      runModelRecords mw.1 mw.2 tests ++ run_tests_for_models rest tests := rfl

/-- The run's rows filtered to one verified model and one test name
are exactly the one record of that (model, test) pair. -/
theorem run_filter_single (models : List (String × ModelWorld)) (tests : List String)
    (hnd : (models.map Prod.fst).Nodup) (hts : tests.Nodup)
    (m : String) (w : ModelWorld) (hmem : (m, w) ∈ models)
    (hping : (pingLoop w).1 = true) (t : String) (ht : t ∈ tests) :
    (run_tests_for_models models tests).filter (fun r => r.model == m && r.test_case == t)
      = [makeRecord m (w.testStart t) t (w.testOutcome t)] := by
  induction models with
  | nil => cases hmem
  | cons mw rest ih =>
    rw [run_tests_cons, List.filter_append]
    rw [List.map_cons] at hnd
    have hnotin := (List.nodup_cons.mp hnd).1
    have hndrest := (List.nodup_cons.mp hnd).2
    rcases List.mem_cons.mp hmem with heq | hmem2
    · obtain rfl := heq.symm
      have hhead : (runModelRecords m w tests).filter
          (fun r => r.model == m && r.test_case == t)
          = [makeRecord m (w.testStart t) t (w.testOutcome t)] := by
        rw [runModelRecords, if_pos hping]
        exact filter_map_single m t _ (fun x => makeRecord_model m (w.testStart x) x _)
          (fun x => makeRecord_test_case m (w.testStart x) x _) tests hts ht
      rw [hhead, run_filter_nil rest tests m t hnotin, List.append_nil]
    · have hmmem : m ∈ rest.map Prod.fst := List.mem_map.mpr ⟨(m, w), hmem2, rfl⟩
      have hne : mw.1 ≠ m := fun he => hnotin (he ▸ hmmem)
      have hhead : (runModelRecords mw.1 mw.2 tests).filter
          (fun r => r.model == m && r.test_case == t) = [] := by
        rw [List.filter_eq_nil_iff]
        intro r hr
        have hrm := mem_runModelRecords_model mw.1 mw.2 tests r hr
        simp [hrm, hne]
      rw [hhead, List.nil_append]
      exact ih hndrest hmem2

/-- Claim C1: for every model that passes warm-up verification and
every test-case name of the ordered test directory, the run appends
exactly one result row for that (model, test case) pair: the success
row with the clipped actual output, or the timeout row with sentinel
output "TIMEOUT", zero `output_chars` and the elapsed duration. -/
theorem one_record_per_model_test (models : List (String × ModelWorld)) (tests : List String)
    (hnd : (models.map Prod.fst).Nodup) (hts : tests.Nodup)
    (m : String) (w : ModelWorld) (hmem : (m, w) ∈ models)
    (hping : (pingLoop w).1 = true) (t : String) (ht : t ∈ tests) :
    MAX_RESPONSE_TIME = 180 ∧
    (run_tests_for_models models tests).filter (fun r => r.model == m && r.test_case == t)
      = [makeRecord m (w.testStart t) t (w.testOutcome t)] ∧
    (∀ out err rc dur, w.testOutcome t = .success out err rc dur →
      makeRecord m (w.testStart t) t (w.testOutcome t) =
        ⟨w.testStart t, m, t, dur, out.length, pySlice out MAX_OUTPUT_CHARS⟩) ∧
    (∀ el, w.testOutcome t = .timeout el →
      makeRecord m (w.testStart t) t (w.testOutcome t) =
        ⟨w.testStart t, m, t, el, 0, "TIMEOUT"⟩) := by
  refine ⟨rfl, run_filter_single models tests hnd hts m w hmem hping t ht, ?_, ?_⟩
  · intro out err rc dur h
    rw [h]
    rfl
  · intro el h
    rw [h]
    rfl

/-- Witness for C1: a run over one verified model and two test cases,
where `t1` succeeds and `t2` times out. -/
theorem one_record_per_model_test_witness :
    (run_tests_for_models [("good", c1World)] ["t1", "t2"]).filter
        (fun r => r.model == "good" && r.test_case == "t2")
      = [makeRecord "good" (c1World.testStart "t2") "t2" (c1World.testOutcome "t2")] ∧
    makeRecord "good" (c1World.testStart "t2") "t2" (c1World.testOutcome "t2") =
      ⟨"2025-01-01T00:00:00", "good", "t2", 180, 0, "TIMEOUT"⟩ := by
  have h := one_record_per_model_test [("good", c1World)] ["t1", "t2"]
    (by decide) (by decide) "good" c1World (List.mem_cons_self _ _)
    (by decide) "t2" (by decide)
  refine ⟨h.2.1, ?_⟩
  have ht2 : c1World.testOutcome "t2" = .timeout 180 := by
    simp [c1World]
  exact h.2.2.2 180 ht2

/-- Claim C6 (evaluation of the code at the failing input): with two
discovered runs that both have parseable matching telemetry sinks, the
flat `telemetry` map carries a truthy aggregate for the second run,
yet only the first run's model entries receive the `telemetry` field —
the entries of the second run have no such field at all, because the
dashboard builder returns from inside its per-run copy loop. -/
theorem dashboard_telemetry_only_first_run :
    c6Payload.runs.length = 2 ∧
    (c6Payload.runs.getD 0 ("", [])).1 = "benchmark_results_A.csv" ∧
    (c6Payload.runs.getD 1 ("", [])).1 = "benchmark_results_B.csv" ∧
    (c6EntryAt 0).telemetry.isSome = true ∧
    (c6EntryAt 1).model = "m1" ∧
    (c6EntryAt 1).telemetry = none ∧
    (lookupStr c6Payload.telemetry "benchmark_results_B.csv").join.isSome = true ∧
    telTruthy ((lookupStr c6Payload.telemetry "benchmark_results_B.csv").join) = true := by
  decide
